import Mathlib

/-!
Verification of `nautilus_trader/adapters/binance/parsing.py`: a shallow
embedding of the module's translators (depth updates, order-book deltas,
ticker, quote tick, trade ticks, bars) together with theorems about the
spec's claims.  Wire messages are embedded as explicit record types, Python
exceptions as an `Except` error type, decimal wire literals as exact
mantissa/scale pairs, and CPython's `float()` conversion as correctly
rounded IEEE-754 binary64 over the rationals.
-/

namespace Binance

/-- Wire-format decimal literal: Binance prices, sizes and volumes arrive as
unsigned decimal strings; the literal with digits `mantissa` and `scale`
fractional digits denotes the exact rational `mantissa / 10 ^ scale`
(for example `"9.5"` is `mantissa 95, scale 1`). -/
structure DecLit where
  mantissa : ℕ
  scale : ℕ
deriving DecidableEq

/-- Exact rational value of a wire decimal literal. -/
def DecLit.toRat (l : DecLit) : ℚ := (l.mantissa : ℚ) / (10 : ℚ) ^ l.scale

/-- Fuelled bit-length helper: number of binary digits of `n`, with enough
fuel for any literal in the modelled range. -/
def bitsF : ℕ → ℕ → ℕ
  | 0, _ => 0
  | f + 1, n => if n = 0 then 0 else bitsF f (n / 2) + 1

/-- Number of binary digits of `n` (0 for 0); fuel 4000 covers every decimal
literal of up to about 1200 digits, far beyond the IEEE-754 double range. -/
def bits (n : ℕ) : ℕ := bitsF 4000 n

/-- Decides `2 ^ k ≤ n / d` over the integers (no rational arithmetic). -/
def le2pow (k : ℤ) (n d : ℕ) : Bool :=
  if 0 ≤ k then decide (d * 2 ^ k.toNat ≤ n) else decide (d ≤ n * 2 ^ (-k).toNat)

/-- Integer core of CPython `float()` on an unsigned decimal literal with
value `n / d`: returns the pair `(m, e)` such that the nearest IEEE-754
binary64 value (round half to even) is `m * 2 ^ e`.  Modelled for the normal
finite range of doubles (no overflow, underflow or subnormals), which covers
every literal the exchange sends. -/
def pyFloatCore (n d : ℕ) : ℕ × ℤ :=
  if n = 0 then (0, 0)
  else
    let e0 : ℤ := (bits n : ℤ) - (bits d : ℤ)
    let e : ℤ := if le2pow e0 n d then e0 else e0 - 1
    let k : ℤ := 52 - e
    let N : ℕ := if 0 ≤ k then n * 2 ^ k.toNat else n
    let D : ℕ := if 0 ≤ k then d else d * 2 ^ (-k).toNat
    let f : ℕ := N / D
    let r : ℕ := N % D
    let m : ℕ :=
      if 2 * r < D then f
      else if D < 2 * r then f + 1
      else if f % 2 = 0 then f else f + 1
    (m, e - 52)

/-- Rational value of the dyadic `m * 2 ^ e`. -/
def dyadic (m : ℕ) (e : ℤ) : ℚ :=
  if 0 ≤ e then (m : ℚ) * (2 : ℚ) ^ e.toNat else (m : ℚ) / (2 : ℚ) ^ (-e).toNat

/-- Embedding of the source's `float(delta[i])` calls: the exact rational
value of the IEEE-754 binary64 double that CPython's `float()` produces from
the wire decimal literal. -/
def pyFloat (l : DecLit) : ℚ :=
  dyadic (pyFloatCore l.mantissa (10 ^ l.scale)).1 (pyFloatCore l.mantissa (10 ^ l.scale)).2

/-- Opaque trading symbol (a string in the source, identity only here). -/
structure Symbol where
  name : ℕ
deriving DecidableEq

/-- Trading venue; the module qualifies every instrument with the constant
`BINANCE_VENUE`. -/
inductive Venue where
  | BINANCE
deriving DecidableEq

/-- Modelled from the spec: global venue constant used to qualify every
instrument id (spec section 9); `nautilus_trader.adapters.binance.common` is
not under `src/`. -/
def BINANCE_VENUE : Venue := Venue.BINANCE

/-- Venue-qualified instrument identifier (spec section 3). -/
structure InstrumentId where
  symbol : Symbol
  venue : Venue
deriving DecidableEq

inductive OrderSide where
  | BUY
  | SELL
deriving DecidableEq

inductive BookAction where
  | UPDATE
  | DELETE
deriving DecidableEq

inductive BookType where
  | L2_MBP
deriving DecidableEq

inductive AggressorSide where
  | BUY
  | SELL
deriving DecidableEq

inductive BarAggregation where
  | MINUTE
  | HOUR
  | DAY
deriving DecidableEq

inductive PriceType where
  | LAST
deriving DecidableEq

inductive AggregationSource where
  | EXTERNAL
deriving DecidableEq

/-- Modelled from the spec: exact decimal price value, constructed from the
wire literal with no precision loss (spec sections 3 and 4.2);
`nautilus_trader.model.objects.Price` is not under `src/`. -/
structure Price where
  val : ℚ
deriving DecidableEq

def Price.from_str (l : DecLit) : Price := ⟨l.toRat⟩

/-- Modelled from the spec: exact decimal quantity value, constructed from
the wire literal with no precision loss (spec sections 3 and 4.2);
`nautilus_trader.model.objects.Quantity` is not under `src/`. -/
structure Quantity where
  val : ℚ
deriving DecidableEq

def Quantity.from_str (l : DecLit) : Quantity := ⟨l.toRat⟩

/-- Modelled from the spec: Python `Decimal(str)` conversion is exact
(spec section 4.2, Numeric Literal Parser). -/
def Decimal (l : DecLit) : ℚ := l.toRat

/-- Modelled from the spec: Timestamp Normalizer (spec section 4.1) —
exact integer scaling of a millisecond epoch to nanoseconds;
`nautilus_trader.core.datetime.millis_to_nanos` is not under `src/`.  The
spec's range check is outside the claims' scope: wire times are in range. -/
def millis_to_nanos (ms : ℤ) : ℤ := ms * 1000000

/-- Book level order, as built by `parse_order_book_delta_ws`; the source's
`Order` holds the `float`-parsed price and size. -/
structure Order where
  price : ℚ
  size : ℚ
  side : OrderSide
deriving DecidableEq

structure OrderBookDelta where
  instrument_id : InstrumentId
  book_type : BookType
  action : BookAction
  order : Order
  ts_event : ℤ
  ts_init : ℤ
deriving DecidableEq

structure OrderBookDeltas where
  instrument_id : InstrumentId
  book_type : BookType
  deltas : List OrderBookDelta
  ts_event : ℤ
  ts_init : ℤ
deriving DecidableEq

structure QuoteTick where
  instrument_id : InstrumentId
  bid : Price
  ask : Price
  bid_size : Quantity
  ask_size : Quantity
  ts_event : ℤ
  ts_init : ℤ
deriving DecidableEq

structure TradeTick where
  instrument_id : InstrumentId
  price : Price
  size : Quantity
  aggressor_side : AggressorSide
  match_id : ℤ
  ts_event : ℤ
  ts_init : ℤ
deriving DecidableEq

structure BinanceTicker where
  instrument_id : InstrumentId
  price_change : ℚ
  price_change_percent : ℚ
  weighted_avg_price : ℚ
  prev_close_price : ℚ
  last_price : ℚ
  last_qty : ℚ
  bid_price : ℚ
  ask_price : ℚ
  open_price : ℚ
  high_price : ℚ
  low_price : ℚ
  volume : ℚ
  quote_volume : ℚ
  open_time_ms : ℤ
  close_time_ms : ℤ
  first_id : ℤ
  last_id : ℤ
  count : ℤ
  ts_event : ℤ
  ts_init : ℤ
deriving DecidableEq

structure BarSpecification where
  step : ℤ
  aggregation : BarAggregation
  price_type : PriceType
deriving DecidableEq

structure BarType where
  instrument_id : InstrumentId
  bar_spec : BarSpecification
  aggregation_source : AggregationSource
deriving DecidableEq

/-- Element of the REST kline positional array: the wire mixes integer fields
(times, trade count) with decimal string fields. -/
inductive JVal where
  | jint (n : ℤ)
  | jstr (l : DecLit)
deriving DecidableEq

/-- Canonical bar record; `count` carries the raw wire value through, as the
source passes `values[8]` / `kline["n"]` unconverted. -/
structure BinanceBar where
  bar_type : BarType
  open_ : Price
  high : Price
  low : Price
  close : Price
  volume : Quantity
  quote_volume : Quantity
  count : JVal
  taker_buy_base_volume : Quantity
  taker_buy_quote_volume : Quantity
  ts_event : ℤ
  ts_init : ℤ
deriving DecidableEq

/-- Exceptional outcomes of the translators.  `typeError`, `indexError` and
`valueError` embed the corresponding untyped Python exceptions;
`unsupportedAggregationUnit` embeds the `RuntimeError` raised for an unknown
interval resolution; `malformedDepthMessage` is the typed failure the spec's
error taxonomy names (spec section 7) — modelled from the spec, it is never
produced by the source. -/
inductive PErr where
  | typeError
  | indexError
  | valueError
  | unsupportedAggregationUnit
  | malformedDepthMessage
deriving DecidableEq

/-- Streaming depth-update message: event time `E` and the bid/ask level
lists `b`/`a`.  The source reads the lists with `msg.get(...)`, which yields
`None` when the key is absent, hence the `Option`s. -/
structure DepthMsg where
  E : ℤ
  b : Option (List (DecLit × DecLit))
  a : Option (List (DecLit × DecLit))
deriving DecidableEq

/-- Streaming 24h ticker message (field keys as on the wire). -/
structure TickerMsg where
  p : DecLit
  P : DecLit
  w : DecLit
  x : DecLit
  c : DecLit
  Q : DecLit
  b : DecLit
  a : DecLit
  o : DecLit
  h : DecLit
  l : DecLit
  v : DecLit
  q : DecLit
  O : ℤ
  C : ℤ
  F : ℤ
  L : ℤ
  n : ℤ
  E : ℤ
deriving DecidableEq

/-- Streaming book-ticker message: best bid/ask price (`b`/`a`) and
size (`B`/`A`); this wire format carries no event time. -/
structure QuoteMsg where
  b : DecLit
  a : DecLit
  B : DecLit
  A : DecLit
deriving DecidableEq

/-- REST trade record. -/
structure TradeMsg where
  price : DecLit
  qty : DecLit
  isBuyerMaker : Bool
  id : ℤ
  time : ℤ
deriving DecidableEq

/-- Streaming trade record. -/
structure TradeMsgWs where
  p : DecLit
  q : DecLit
  m : Bool
  t : ℤ
  T : ℤ
deriving DecidableEq

/-- Streaming kline envelope (carries the event time). -/
structure StreamMsg where
  E : ℤ
deriving DecidableEq

/-- Streaming kline payload: symbol, interval code (a character string),
OHLCV decimal strings, trade count and taker-buy volumes. -/
structure KlineMsg where
  s : Symbol
  i : List Char
  o : DecLit
  h : DecLit
  l : DecLit
  c : DecLit
  v : DecLit
  q : DecLit
  V : DecLit
  Q : DecLit
  n : ℤ
deriving DecidableEq

/-- Translation of one raw `(price, size)` level tuple
(`parse_order_book_delta_ws`, parsing.py lines 65-88): price and size go
through `float(...)`, and the action is `UPDATE` when `size > 0.0`, else
`DELETE`. -/
def parse_order_book_delta_ws (instrument_id : InstrumentId) (side : OrderSide)
    (delta : DecLit × DecLit) (ts_event : ℤ) (ts_init : ℤ) : OrderBookDelta :=
  let price : ℚ := pyFloat delta.1
  let size : ℚ := pyFloat delta.2
  let order : Order := { price := price, size := size, side := side }
  { instrument_id := instrument_id
    book_type := BookType.L2_MBP
    action := if 0 < size then BookAction.UPDATE else BookAction.DELETE
    order := order
    ts_event := ts_event
    ts_init := ts_init }

/-- Translation of a streaming depth-update message
(`parse_diff_depth_stream_ws`, parsing.py lines 43-62): `ts_event` is
computed once from `msg["E"]`, the bid comprehension runs before the ask
comprehension, and iterating a `None` from `msg.get(...)` raises a Python
`TypeError`. -/
def parse_diff_depth_stream_ws (msg : DepthMsg) (symbol : Symbol) (ts_init : ℤ) :
    Except PErr OrderBookDeltas :=
  let inst_id : InstrumentId := { symbol := symbol, venue := BINANCE_VENUE }
  let ts_event : ℤ := millis_to_nanos msg.E
  match msg.b with
  | none => Except.error PErr.typeError
  | some bids =>
    match msg.a with
    | none => Except.error PErr.typeError
    | some asks =>
      Except.ok
        { instrument_id := inst_id
          book_type := BookType.L2_MBP
          deltas :=
            bids.map (fun d => parse_order_book_delta_ws inst_id OrderSide.BUY d ts_event ts_init)
              ++ asks.map (fun d => parse_order_book_delta_ws inst_id OrderSide.SELL d ts_event ts_init)
          ts_event := ts_event
          ts_init := ts_init }

/-- Translation of the streaming 24h ticker (`parse_ticker_ws`, parsing.py
lines 91-114). -/
def parse_ticker_ws (msg : TickerMsg) (symbol : Symbol) (ts_init : ℤ) : BinanceTicker :=
  { instrument_id := { symbol := symbol, venue := BINANCE_VENUE }
    price_change := Decimal msg.p
    price_change_percent := Decimal msg.P
    weighted_avg_price := Decimal msg.w
    prev_close_price := Decimal msg.x
    last_price := Decimal msg.c
    last_qty := Decimal msg.Q
    bid_price := Decimal msg.b
    ask_price := Decimal msg.a
    open_price := Decimal msg.o
    high_price := Decimal msg.h
    low_price := Decimal msg.l
    volume := Decimal msg.v
    quote_volume := Decimal msg.q
    open_time_ms := msg.O
    close_time_ms := msg.C
    first_id := msg.F
    last_id := msg.L
    count := msg.n
    ts_event := millis_to_nanos msg.E
    ts_init := ts_init }

/-- Translation of the streaming book ticker (`parse_quote_tick_ws`,
parsing.py lines 117-126).  As in the source, both sizes are read from the
`"B"` field, and `ts_event` is the caller-supplied `ts_init`. -/
def parse_quote_tick_ws (msg : QuoteMsg) (symbol : Symbol) (ts_init : ℤ) : QuoteTick :=
  { instrument_id := { symbol := symbol, venue := BINANCE_VENUE }
    bid := Price.from_str msg.b
    ask := Price.from_str msg.a
    bid_size := Quantity.from_str msg.B
    ask_size := Quantity.from_str msg.B
    ts_event := ts_init
    ts_init := ts_init }

/-- Translation of a REST trade record (`parse_trade_tick`, parsing.py
lines 129-138). -/
def parse_trade_tick (msg : TradeMsg) (instrument_id : InstrumentId) (ts_init : ℤ) : TradeTick :=
  { instrument_id := instrument_id
    price := Price.from_str msg.price
    size := Quantity.from_str msg.qty
    aggressor_side := if msg.isBuyerMaker then AggressorSide.SELL else AggressorSide.BUY
    match_id := msg.id
    ts_event := millis_to_nanos msg.time
    ts_init := ts_init }

/-- Translation of a streaming trade record (`parse_trade_tick_ws`,
parsing.py lines 141-150). -/
def parse_trade_tick_ws (msg : TradeMsgWs) (symbol : Symbol) (ts_init : ℤ) : TradeTick :=
  { instrument_id := { symbol := symbol, venue := BINANCE_VENUE }
    price := Price.from_str msg.p
    size := Quantity.from_str msg.q
    aggressor_side := if msg.m then AggressorSide.SELL else AggressorSide.BUY
    match_id := msg.t
    ts_event := millis_to_nanos msg.T
    ts_init := ts_init }

/-- `values[i]` on the REST kline array: a Python `IndexError` when the index
is out of range. -/
def jget (values : List JVal) (i : ℕ) : Except PErr JVal :=
  match values.get? i with
  | some v => Except.ok v
  | none => Except.error PErr.indexError

/-- `Price.from_str` applied to a kline array element; a non-string element
raises a Python `TypeError` inside the constructor. -/
def Price.from_j : JVal → Except PErr Price
  | JVal.jstr l => Except.ok (Price.from_str l)
  | JVal.jint _ => Except.error PErr.typeError

/-- `Quantity.from_str` applied to a kline array element. -/
def Quantity.from_j : JVal → Except PErr Quantity
  | JVal.jstr l => Except.ok (Quantity.from_str l)
  | JVal.jint _ => Except.error PErr.typeError

/-- `millis_to_nanos` applied to a kline array element; a non-integer element
raises a Python `TypeError`. -/
def jmillis : JVal → Except PErr ℤ
  | JVal.jint n => Except.ok (millis_to_nanos n)
  | JVal.jstr _ => Except.error PErr.typeError

/-- Translation of a REST kline positional array (`parse_bar`, parsing.py
lines 153-167).  The array elements are read in the source's argument
order: indices 1,2,3,4,5,7,8,9,10 and finally 0 for `ts_event`. -/
def parse_bar (bar_type : BarType) (values : List JVal) (ts_init : ℤ) :
    Except PErr BinanceBar :=
  Except.bind (jget values 1) fun a1 =>
  Except.bind (Price.from_j a1) fun vopen =>
  Except.bind (jget values 2) fun a2 =>
  Except.bind (Price.from_j a2) fun vhigh =>
  Except.bind (jget values 3) fun a3 =>
  Except.bind (Price.from_j a3) fun vlow =>
  Except.bind (jget values 4) fun a4 =>
  Except.bind (Price.from_j a4) fun vclose =>
  Except.bind (jget values 5) fun a5 =>
  Except.bind (Quantity.from_j a5) fun vvolume =>
  Except.bind (jget values 7) fun a7 =>
  Except.bind (Quantity.from_j a7) fun vquote =>
  Except.bind (jget values 8) fun a8 =>
  Except.bind (jget values 9) fun a9 =>
  Except.bind (Quantity.from_j a9) fun vtbb =>
  Except.bind (jget values 10) fun a10 =>
  Except.bind (Quantity.from_j a10) fun vtbq =>
  Except.bind (jget values 0) fun a0 =>
  Except.bind (jmillis a0) fun ts_event =>
  Except.ok
    { bar_type := bar_type
      open_ := vopen
      high := vhigh
      low := vlow
      close := vclose
      volume := vvolume
      quote_volume := vquote
      count := a8
      taker_buy_base_volume := vtbb
      taker_buy_quote_volume := vtbq
      ts_event := ts_event
      ts_init := ts_init }

/-- `interval[i]` on the interval code: a Python `IndexError` when the string
is too short. -/
def charAt (cs : List Char) (i : ℕ) : Except PErr Char :=
  match cs.get? i with
  | some c => Except.ok c
  | none => Except.error PErr.indexError

/-- Python `int(...)` on the one-character string `interval[0]`: the digit
value, or a `ValueError` for a non-digit character. -/
def pyIntChar (c : Char) : Except PErr ℤ :=
  if c.isDigit then Except.ok ((c.toNat - 48 : ℕ) : ℤ) else Except.error PErr.valueError

/-- Translation of a streaming kline message (`parse_bar_ws`, parsing.py
lines 170-207): the resolution is the character `interval[1]`, mapped through
the `m`/`h`/`d` chain with a `RuntimeError` fallthrough, and the step is
`int(interval[0])`, the first character alone. -/
def parse_bar_ws (msg : StreamMsg) (kline : KlineMsg) (ts_init : ℤ) :
    Except PErr BinanceBar :=
  let interval := kline.i
  Except.bind (charAt interval 1) fun resolution =>
  Except.bind
    (if resolution = 'm' then Except.ok BarAggregation.MINUTE
     else if resolution = 'h' then Except.ok BarAggregation.HOUR
     else if resolution = 'd' then Except.ok BarAggregation.DAY
     else Except.error PErr.unsupportedAggregationUnit) fun aggregation =>
  Except.bind (charAt interval 0) fun c0 =>
  Except.bind (pyIntChar c0) fun step =>
  let bar_spec : BarSpecification :=
    { step := step, aggregation := aggregation, price_type := PriceType.LAST }
  let bar_type : BarType :=
    { instrument_id := { symbol := kline.s, venue := BINANCE_VENUE }
      bar_spec := bar_spec
      aggregation_source := AggregationSource.EXTERNAL }
  Except.ok
    { bar_type := bar_type
      open_ := Price.from_str kline.o
      high := Price.from_str kline.h
      low := Price.from_str kline.l
      close := Price.from_str kline.c
      volume := Quantity.from_str kline.v
      quote_volume := Quantity.from_str kline.q
      count := JVal.jint kline.n
      taker_buy_base_volume := Quantity.from_str kline.V
      taker_buy_quote_volume := Quantity.from_str kline.Q
      ts_event := millis_to_nanos msg.E
      ts_init := ts_init }

/-- Concrete symbol fixture. -/
def sym0 : Symbol := ⟨0⟩

/-- Concrete instrument-id fixture. -/
def iid0 : InstrumentId := { symbol := sym0, venue := BINANCE_VENUE }

/-- The literal `"1"`. -/
def lit_one : DecLit := ⟨1, 0⟩

/-- The literal `"0.00000001"`: one unit at the eighth decimal place. -/
def lit_e8 : DecLit := ⟨1, 8⟩

/-- Depth update of the spec's end-to-end scenario (spec section 8):
`{"E": 1000, "b": [["10.0","1.0"],["9.5","0"]], "a": [["11.0","2.0"]]}`. -/
def dm1 : DepthMsg :=
  { E := 1000
    b := some [(⟨100, 1⟩, ⟨10, 1⟩), (⟨95, 1⟩, ⟨0, 0⟩)]
    a := some [(⟨110, 1⟩, ⟨20, 1⟩)] }

/-- Depth update with no `"b"` key. -/
def dmNoB : DepthMsg := { E := 1000, b := none, a := some [] }

/-- Depth update with a `"b"` key but no `"a"` key. -/
def dmNoA : DepthMsg := { E := 1000, b := some [], a := none }

/-- Book-ticker fixture with distinct bid size (`B`, `"1.5"`) and ask size
(`A`, `"2.5"`). -/
def qm0 : QuoteMsg := { b := ⟨100, 1⟩, a := ⟨110, 1⟩, B := ⟨15, 1⟩, A := ⟨25, 1⟩ }

/-- REST trade fixture with the maker flag set. -/
def rm0 : TradeMsg := { price := ⟨1005, 1⟩, qty := ⟨1, 2⟩, isBuyerMaker := true, id := 42, time := 2000 }

/-- REST trade fixture with the maker flag clear. -/
def rm1 : TradeMsg := { rm0 with isBuyerMaker := false }

/-- Streaming trade fixture with the maker flag set. -/
def wm0 : TradeMsgWs := { p := ⟨1005, 1⟩, q := ⟨1, 2⟩, m := true, t := 42, T := 2000 }

/-- Streaming trade fixture with the maker flag clear. -/
def wm1 : TradeMsgWs := { wm0 with m := false }

/-- Ticker fixture. -/
def tm0 : TickerMsg :=
  { p := ⟨1, 0⟩, P := ⟨2, 0⟩, w := ⟨3, 0⟩, x := ⟨4, 0⟩, c := ⟨5, 0⟩, Q := ⟨6, 0⟩
    b := ⟨7, 0⟩, a := ⟨8, 0⟩, o := ⟨9, 0⟩, h := ⟨10, 0⟩, l := ⟨11, 0⟩, v := ⟨12, 0⟩
    q := ⟨13, 0⟩, O := 100, C := 200, F := 1, L := 2, n := 3, E := 4000 }

/-- Streaming kline envelope fixture. -/
def sm0 : StreamMsg := { E := 7000 }

/-- Kline fixture with interval code `"4h"`. -/
def k4h : KlineMsg :=
  { s := sym0, i := ['4', 'h'], o := ⟨1, 0⟩, h := ⟨2, 0⟩, l := ⟨3, 0⟩, c := ⟨4, 0⟩
    v := ⟨5, 0⟩, q := ⟨6, 0⟩, V := ⟨7, 0⟩, Q := ⟨8, 0⟩, n := 9 }

/-- Kline fixture with the two-digit interval code `"15m"`, a real Binance
interval. -/
def k15m : KlineMsg := { k4h with i := ['1', '5', 'm'] }

/-- Bar-type fixture for the REST kline translator. -/
def bt1 : BarType :=
  { instrument_id := iid0
    bar_spec := { step := 1, aggregation := BarAggregation.MINUTE, price_type := PriceType.LAST }
    aggregation_source := AggregationSource.EXTERNAL }

/-- Eleven-field REST kline fixture with one extra trailing element. -/
def vA : List JVal :=
  [JVal.jint 1000, JVal.jstr ⟨1, 0⟩, JVal.jstr ⟨2, 0⟩, JVal.jstr ⟨3, 0⟩, JVal.jstr ⟨4, 0⟩,
   JVal.jstr ⟨5, 0⟩, JVal.jint 111, JVal.jstr ⟨7, 0⟩, JVal.jint 8, JVal.jstr ⟨9, 0⟩,
   JVal.jstr ⟨10, 0⟩, JVal.jint 999]

/-- Same kline as `vA` at every consumed index, but a different close time
(index 6) and no trailing element. -/
def vB : List JVal :=
  [JVal.jint 1000, JVal.jstr ⟨1, 0⟩, JVal.jstr ⟨2, 0⟩, JVal.jstr ⟨3, 0⟩, JVal.jstr ⟨4, 0⟩,
   JVal.jstr ⟨5, 0⟩, JVal.jstr ⟨42, 3⟩, JVal.jstr ⟨7, 0⟩, JVal.jint 8, JVal.jstr ⟨9, 0⟩,
   JVal.jstr ⟨10, 0⟩]

theorem dyadic_nonneg (m : ℕ) (e : ℤ) : 0 ≤ dyadic m e := by
  unfold dyadic
  split
  · exact mul_nonneg (Nat.cast_nonneg m) (pow_nonneg (by norm_num) _)
  · exact div_nonneg (Nat.cast_nonneg m) (pow_nonneg (by norm_num) _)

theorem pyFloat_nonneg (l : DecLit) : 0 ≤ pyFloat l := dyadic_nonneg _ _

/-- C5: for every order-book level tuple translated by
`parse_order_book_delta_ws`, the delta's action is `DELETE` iff the parsed
size is exactly zero, and `UPDATE` iff the parsed size is greater than
zero. -/
theorem C5_action_iff_size_zero (iid : InstrumentId) (side : OrderSide)
    (d : DecLit × DecLit) (te ti : ℤ) :
    ((parse_order_book_delta_ws iid side d te ti).action = BookAction.DELETE
        ↔ (parse_order_book_delta_ws iid side d te ti).order.size = 0) ∧
    ((parse_order_book_delta_ws iid side d te ti).action = BookAction.UPDATE
        ↔ 0 < (parse_order_book_delta_ws iid side d te ti).order.size) := by
  have h0 : 0 ≤ pyFloat d.2 := pyFloat_nonneg d.2
  by_cases h : 0 < pyFloat d.2
  · simp [parse_order_book_delta_ws, h]
    exact ne_of_gt h
  · have hz : pyFloat d.2 = 0 := le_antisymm (not_lt.1 h) h0
    simp [parse_order_book_delta_ws, h, hz]

theorem pyFloat_e8 : pyFloat lit_e8 = (6044629098073146 : ℚ) / 2 ^ 79 := by
  have hc : pyFloatCore lit_e8.mantissa (10 ^ lit_e8.scale) = (6044629098073146, -79) := by
    decide
  unfold pyFloat
  rw [hc]
  unfold dyadic
  rw [if_neg (by norm_num)]
  have h79 : (-(-79 : ℤ)).toNat = 79 := rfl
  rw [h79]
  norm_num

/-- C2 counterexample: the order-book delta translator parses the size
literal `"0.00000001"` through binary floating point, so the parsed value is
not the literal's exact decimal value. -/
theorem C2_float_lossy_counterexample :
    (parse_order_book_delta_ws iid0 OrderSide.BUY (lit_one, lit_e8) 0 0).order.size
      ≠ lit_e8.toRat := by
  have hs : (parse_order_book_delta_ws iid0 OrderSide.BUY (lit_one, lit_e8) 0 0).order.size
      = pyFloat lit_e8 := rfl
  rw [hs, pyFloat_e8]
  unfold lit_e8 DecLit.toRat
  norm_num

/-- C2 (amended): every price and size literal parsed through the exact
decimal constructors — i.e. by every translator except the order-book delta
translator — is lossless with respect to the wire literal's numeric value;
the order-book delta tuples alone are parsed through binary double floating
point, which is lossy, e.g. on the literal `"0.00000001"`. -/
theorem C2_amended_exact_except_delta :
    (∀ (m : QuoteMsg) (s : Symbol) (t : ℤ),
        (parse_quote_tick_ws m s t).bid.val = m.b.toRat ∧
        (parse_quote_tick_ws m s t).ask.val = m.a.toRat ∧
        (parse_quote_tick_ws m s t).bid_size.val = m.B.toRat ∧
        (parse_quote_tick_ws m s t).ask_size.val = m.B.toRat) ∧
    (∀ (m : TradeMsg) (iid : InstrumentId) (t : ℤ),
        (parse_trade_tick m iid t).price.val = m.price.toRat ∧
        (parse_trade_tick m iid t).size.val = m.qty.toRat) ∧
    (∀ (m : TradeMsgWs) (s : Symbol) (t : ℤ),
        (parse_trade_tick_ws m s t).price.val = m.p.toRat ∧
        (parse_trade_tick_ws m s t).size.val = m.q.toRat) ∧
    (∀ (m : TickerMsg) (s : Symbol) (t : ℤ),
        (parse_ticker_ws m s t).last_price = m.c.toRat ∧
        (parse_ticker_ws m s t).bid_price = m.b.toRat ∧
        (parse_ticker_ws m s t).ask_price = m.a.toRat ∧
        (parse_ticker_ws m s t).volume = m.v.toRat) ∧
    (∀ (bt : BarType) (t n0 : ℤ) (l1 l2 l3 l4 l5 l7 l9 l10 : DecLit) (j6 j8 : JVal)
        (rest : List JVal),
        (parse_bar bt ([JVal.jint n0, JVal.jstr l1, JVal.jstr l2, JVal.jstr l3, JVal.jstr l4,
              JVal.jstr l5, j6, JVal.jstr l7, j8, JVal.jstr l9, JVal.jstr l10] ++ rest) t).map
            (fun b => (b.open_.val, b.high.val, b.low.val, b.close.val, b.volume.val,
              b.quote_volume.val, b.taker_buy_base_volume.val, b.taker_buy_quote_volume.val))
          = Except.ok (l1.toRat, l2.toRat, l3.toRat, l4.toRat, l5.toRat, l7.toRat,
              l9.toRat, l10.toRat)) ∧
    (∀ (msg : StreamMsg) (k : KlineMsg) (t : ℤ) (c0 c1 : Char) (rest : List Char),
        k.i = c0 :: c1 :: rest → c0.isDigit = true → (c1 = 'm' ∨ c1 = 'h' ∨ c1 = 'd') →
        (parse_bar_ws msg k t).map
            (fun b => (b.open_.val, b.high.val, b.low.val, b.close.val, b.volume.val,
              b.quote_volume.val, b.taker_buy_base_volume.val, b.taker_buy_quote_volume.val))
          = Except.ok (k.o.toRat, k.h.toRat, k.l.toRat, k.c.toRat, k.v.toRat, k.q.toRat,
              k.V.toRat, k.Q.toRat)) ∧
    (parse_order_book_delta_ws iid0 OrderSide.BUY (lit_one, lit_e8) 0 0).order.size
      ≠ lit_e8.toRat := by
  refine ⟨fun m s t => ⟨rfl, rfl, rfl, rfl⟩, fun m iid t => ⟨rfl, rfl⟩,
    fun m s t => ⟨rfl, rfl⟩, fun m s t => ⟨rfl, rfl, rfl, rfl⟩, ?_, ?_, ?_⟩
  · intro bt t n0 l1 l2 l3 l4 l5 l7 l9 l10 j6 j8 rest
    simp [parse_bar, jget, Price.from_j, Quantity.from_j, jmillis, Except.bind, Except.map,
      List.get?, List.cons_append, List.nil_append, Price.from_str, Quantity.from_str]
  · intro msg k t c0 c1 rest hi hd hc
    rcases hc with hc | hc | hc <;>
      subst hc <;>
      simp [parse_bar_ws, hi, charAt, pyIntChar, hd, Except.bind, Except.map, List.get?,
        Price.from_str, Quantity.from_str]
  · have hs : (parse_order_book_delta_ws iid0 OrderSide.BUY (lit_one, lit_e8) 0 0).order.size
        = pyFloat lit_e8 := rfl
    rw [hs, pyFloat_e8]
    unfold lit_e8 DecLit.toRat
    norm_num

/-- C2 witness: the amended statement applied at concrete inputs — a
two-element kline array prefix and the `"4h"` streaming kline. -/
theorem C2_amended_exact_except_delta_witness :
    k4h.i = '4' :: 'h' :: [] ∧ ('4').isDigit = true ∧
    ((parse_quote_tick_ws qm0 sym0 7).bid.val = qm0.b.toRat ∧
      (parse_quote_tick_ws qm0 sym0 7).ask.val = qm0.a.toRat ∧
      (parse_quote_tick_ws qm0 sym0 7).bid_size.val = qm0.B.toRat ∧
      (parse_quote_tick_ws qm0 sym0 7).ask_size.val = qm0.B.toRat) ∧
    (parse_bar_ws sm0 k4h 9).map
        (fun b => (b.open_.val, b.high.val, b.low.val, b.close.val, b.volume.val,
          b.quote_volume.val, b.taker_buy_base_volume.val, b.taker_buy_quote_volume.val))
      = Except.ok (k4h.o.toRat, k4h.h.toRat, k4h.l.toRat, k4h.c.toRat, k4h.v.toRat,
          k4h.q.toRat, k4h.V.toRat, k4h.Q.toRat) :=
  ⟨rfl, rfl, C2_amended_exact_except_delta.1 qm0 sym0 7,
    C2_amended_exact_except_delta.2.2.2.2.2.1 sm0 k4h 9 '4' 'h' [] rfl rfl
      (Or.inr (Or.inl rfl))⟩

/-- C1: a depth-update message with both level lists present yields a batch
of exactly `bids.length + asks.length` deltas; the first `bids.length`
entries are the bid tuples translated in wire order, the remaining entries
are the ask tuples translated in wire order, and every delta carries
`ts_event = millis_to_nanos msg.E` (computed once from the message) and the
caller-supplied `ts_init`; empty lists yield zero deltas without error. -/
theorem C1_depth_batch_shape (msg : DepthMsg) (symbol : Symbol) (ts_init : ℤ)
    (bids asks : List (DecLit × DecLit)) (hb : msg.b = some bids) (ha : msg.a = some asks) :
    ∃ r : OrderBookDeltas,
      parse_diff_depth_stream_ws msg symbol ts_init = Except.ok r ∧
      r.deltas.length = bids.length + asks.length ∧
      r.deltas.take bids.length = bids.map (fun d =>
        parse_order_book_delta_ws { symbol := symbol, venue := BINANCE_VENUE } OrderSide.BUY d
          (millis_to_nanos msg.E) ts_init) ∧
      r.deltas.drop bids.length = asks.map (fun d =>
        parse_order_book_delta_ws { symbol := symbol, venue := BINANCE_VENUE } OrderSide.SELL d
          (millis_to_nanos msg.E) ts_init) ∧
      ∀ d ∈ r.deltas, d.ts_event = millis_to_nanos msg.E ∧ d.ts_init = ts_init := by
  have hmain : parse_diff_depth_stream_ws msg symbol ts_init = Except.ok
      { instrument_id := { symbol := symbol, venue := BINANCE_VENUE }
        book_type := BookType.L2_MBP
        deltas := bids.map (fun d =>
            parse_order_book_delta_ws { symbol := symbol, venue := BINANCE_VENUE }
              OrderSide.BUY d (millis_to_nanos msg.E) ts_init)
          ++ asks.map (fun d =>
            parse_order_book_delta_ws { symbol := symbol, venue := BINANCE_VENUE }
              OrderSide.SELL d (millis_to_nanos msg.E) ts_init)
        ts_event := millis_to_nanos msg.E
        ts_init := ts_init } := by
    rw [parse_diff_depth_stream_ws, hb, ha]
  refine ⟨_, hmain, ?_, ?_, ?_, ?_⟩
  · simp
  · exact List.take_left' (List.length_map _ _)
  · exact List.drop_left' (List.length_map _ _)
  · intro d hd
    rcases List.mem_append.1 hd with hm | hm <;>
      rcases List.mem_map.1 hm with ⟨x, _, rfl⟩ <;>
      exact ⟨rfl, rfl⟩

/-- C1 witness: the spec's end-to-end scenario, a depth update with two bid
tuples and one ask tuple at `ts_init = 5000`. -/
theorem C1_depth_batch_shape_witness :
    dm1.b = some [(⟨100, 1⟩, ⟨10, 1⟩), (⟨95, 1⟩, ⟨0, 0⟩)] ∧
    dm1.a = some [(⟨110, 1⟩, ⟨20, 1⟩)] ∧
    ∃ r : OrderBookDeltas,
      parse_diff_depth_stream_ws dm1 sym0 5000 = Except.ok r ∧
      r.deltas.length = 3 ∧
      (∀ d ∈ r.deltas, d.ts_event = millis_to_nanos dm1.E ∧ d.ts_init = 5000) := by
  obtain ⟨r, h1, h2, _, _, h5⟩ :=
    C1_depth_batch_shape dm1 sym0 5000 [(⟨100, 1⟩, ⟨10, 1⟩), (⟨95, 1⟩, ⟨0, 0⟩)]
      [(⟨110, 1⟩, ⟨20, 1⟩)] rfl rfl
  exact ⟨rfl, rfl, r, h1, by simpa using h2, h5⟩

/-- C3 (code bug): on a book-ticker message whose bid-size field `B` and
ask-size field `A` differ, `parse_quote_tick_ws` fills the quote's ask size
from the bid-size field `B`, not from the message's own ask-size field `A`
— the source reads `msg["B"]` for both sizes. -/
theorem C3_ask_size_copied_from_bid_field :
    (parse_quote_tick_ws qm0 sym0 7).ask_size = Quantity.from_str qm0.B ∧
    Quantity.from_str qm0.A ≠ Quantity.from_str qm0.B ∧
    (parse_quote_tick_ws qm0 sym0 7).ask_size ≠ Quantity.from_str qm0.A := by
  have hAB : Quantity.from_str qm0.A ≠ Quantity.from_str qm0.B := by
    unfold Quantity.from_str qm0 DecLit.toRat
    intro h
    have := congrArg Quantity.val h
    norm_num at this
  exact ⟨rfl, hAB, fun h => hAB (h ▸ rfl)⟩

/-- C4 counterexample: the real Binance interval code `"15m"` has leading
numeric portion `15` and trailing unit letter `m`, but `parse_bar_ws` reads
the single character `interval[1]` (here `'5'`) as the resolution and raises
the unsupported-aggregation error instead of producing a step-15 minute
bar. -/
theorem C4_multidigit_interval_counterexample :
    parse_bar_ws sm0 k15m 9 = Except.error PErr.unsupportedAggregationUnit := rfl

/-- C4 (amended): `parse_bar_ws` reads only the first two characters of the
interval code: the step is the value of the single digit `interval[0]` and
the aggregation unit is given by the table `m`/`h`/`d` applied to the single
character `interval[1]`; any other second character — including a second
digit, as in `"15m"` — fails with the unsupported-aggregation error. -/
theorem C4_amended_interval_chars (msg : StreamMsg) (k : KlineMsg) (t : ℤ)
    (c0 c1 : Char) (rest : List Char) (hi : k.i = c0 :: c1 :: rest)
    (hd : c0.isDigit = true) :
    (c1 = 'm' → (parse_bar_ws msg k t).map (fun b => b.bar_type.bar_spec)
      = Except.ok { step := ((c0.toNat - 48 : ℕ) : ℤ)
                    aggregation := BarAggregation.MINUTE
                    price_type := PriceType.LAST }) ∧
    (c1 = 'h' → (parse_bar_ws msg k t).map (fun b => b.bar_type.bar_spec)
      = Except.ok { step := ((c0.toNat - 48 : ℕ) : ℤ)
                    aggregation := BarAggregation.HOUR
                    price_type := PriceType.LAST }) ∧
    (c1 = 'd' → (parse_bar_ws msg k t).map (fun b => b.bar_type.bar_spec)
      = Except.ok { step := ((c0.toNat - 48 : ℕ) : ℤ)
                    aggregation := BarAggregation.DAY
                    price_type := PriceType.LAST }) ∧
    (c1 ≠ 'm' → c1 ≠ 'h' → c1 ≠ 'd' →
      parse_bar_ws msg k t = Except.error PErr.unsupportedAggregationUnit) := by
  refine ⟨?_, ?_, ?_, ?_⟩
  · rintro rfl
    simp [parse_bar_ws, hi, charAt, pyIntChar, hd, Except.bind, Except.map, List.get?]
  · rintro rfl
    simp [parse_bar_ws, hi, charAt, pyIntChar, hd, Except.bind, Except.map, List.get?]
  · rintro rfl
    simp [parse_bar_ws, hi, charAt, pyIntChar, hd, Except.bind, Except.map, List.get?]
  · intro hm hh hdd
    simp [parse_bar_ws, hi, charAt, pyIntChar, hm, hh, hdd, Except.bind, List.get?]

/-- C4 witness: the amended statement applied at the `"4h"` kline fixture;
the `'h'` branch produces a step-4 hour specification and the other branches
hold vacuously. -/
theorem C4_amended_interval_chars_witness :
    k4h.i = '4' :: 'h' :: [] ∧ ('4').isDigit = true ∧
    (('h' : Char) = 'm' → (parse_bar_ws sm0 k4h 9).map (fun b => b.bar_type.bar_spec)
      = Except.ok { step := ((('4' : Char).toNat - 48 : ℕ) : ℤ)
                    aggregation := BarAggregation.MINUTE
                    price_type := PriceType.LAST }) ∧
    (('h' : Char) = 'h' → (parse_bar_ws sm0 k4h 9).map (fun b => b.bar_type.bar_spec)
      = Except.ok { step := ((('4' : Char).toNat - 48 : ℕ) : ℤ)
                    aggregation := BarAggregation.HOUR
                    price_type := PriceType.LAST }) :=
  ⟨rfl, rfl, (C4_amended_interval_chars sm0 k4h 9 '4' 'h' [] rfl rfl).1,
    (C4_amended_interval_chars sm0 k4h 9 '4' 'h' [] rfl rfl).2.1⟩

/-- C6: for both trade-tick translators and both maker-flag values, the
aggressor side is `SELL` exactly when the wire flag marks the buyer as the
maker, `BUY` otherwise, and the two variants compute the same function of
the flag. -/
theorem C6_aggressor_from_maker_flag (m : TradeMsg) (iid : InstrumentId) (t : ℤ)
    (w : TradeMsgWs) (s : Symbol) (t' : ℤ) :
    ((parse_trade_tick m iid t).aggressor_side = AggressorSide.SELL ↔ m.isBuyerMaker = true) ∧
    ((parse_trade_tick m iid t).aggressor_side = AggressorSide.BUY ↔ m.isBuyerMaker = false) ∧
    ((parse_trade_tick_ws w s t').aggressor_side = AggressorSide.SELL ↔ w.m = true) ∧
    ((parse_trade_tick_ws w s t').aggressor_side = AggressorSide.BUY ↔ w.m = false) ∧
    (m.isBuyerMaker = w.m →
      (parse_trade_tick m iid t).aggressor_side = (parse_trade_tick_ws w s t').aggressor_side) := by
  cases hm : m.isBuyerMaker <;> cases hw : w.m <;>
    simp [parse_trade_tick, parse_trade_tick_ws, hm, hw]

/-- C6 witness: both maker-flag values enumerated on the concrete trade
fixtures. -/
theorem C6_aggressor_from_maker_flag_witness :
    rm0.isBuyerMaker = true ∧ wm0.m = true ∧
    (parse_trade_tick rm0 iid0 3).aggressor_side = (parse_trade_tick_ws wm0 sym0 3).aggressor_side ∧
    rm1.isBuyerMaker = false ∧ wm1.m = false ∧
    (parse_trade_tick rm1 iid0 3).aggressor_side = (parse_trade_tick_ws wm1 sym0 3).aggressor_side :=
  ⟨rfl, rfl, (C6_aggressor_from_maker_flag rm0 iid0 3 wm0 sym0 3).2.2.2.2 rfl,
    rfl, rfl, (C6_aggressor_from_maker_flag rm1 iid0 3 wm1 sym0 3).2.2.2.2 rfl⟩

/-- C7 counterexample: a depth update with no `"b"` list makes the source
iterate `None`, an untyped Python `TypeError` — not the typed failure
`MalformedDepthMessage` that the claim names. -/
theorem C7_missing_bids_counterexample :
    parse_diff_depth_stream_ws dmNoB sym0 7 = Except.error PErr.typeError ∧
    PErr.typeError ≠ PErr.malformedDepthMessage :=
  ⟨rfl, by decide⟩

/-- C7 (amended): if either level list is absent from a depth-update
message, `parse_diff_depth_stream_ws` fails with the untyped `TypeError`
raised by iterating `None` — the failure reaches the caller with no
partially-constructed batch, but it is not the typed `MalformedDepthMessage`
of the spec's taxonomy. -/
theorem C7_amended_untyped_failure (msg : DepthMsg) (s : Symbol) (t : ℤ)
    (h : msg.b = none ∨ msg.a = none) :
    parse_diff_depth_stream_ws msg s t = Except.error PErr.typeError := by
  rcases h with h | h
  · rw [parse_diff_depth_stream_ws, h]
  · rw [parse_diff_depth_stream_ws, h]
    cases msg.b <;> rfl

/-- C7 witness: the amended statement at both concrete messages, one missing
the bid list and one missing the ask list. -/
theorem C7_amended_untyped_failure_witness :
    dmNoB.b = none ∧ dmNoA.a = none ∧
    parse_diff_depth_stream_ws dmNoB sym0 7 = Except.error PErr.typeError ∧
    parse_diff_depth_stream_ws dmNoA sym0 7 = Except.error PErr.typeError :=
  ⟨rfl, rfl, C7_amended_untyped_failure dmNoB sym0 7 (Or.inl rfl),
    C7_amended_untyped_failure dmNoA sym0 7 (Or.inr rfl)⟩

/-- C8: the book-ticker translator synthesizes `ts_event` as the
caller-supplied `ts_init` (its wire format carries no event time), and it is
the only translator in the module to do so — every other translator derives
`ts_event` from its message's own wire time field via the millisecond
conversion. -/
theorem C8_ts_event_sources (qm : QuoteMsg) (s : Symbol) (t : ℤ)
    (dm : DepthMsg) (hb : dm.b.isSome = true) (ha : dm.a.isSome = true)
    (tm : TickerMsg) (rm : TradeMsg) (iid : InstrumentId) (wm : TradeMsgWs)
    (bt : BarType) (v : List JVal) (n0 : ℤ) (l1 l2 l3 l4 l5 l7 l9 l10 : DecLit) (j8 : JVal)
    (h0 : v.get? 0 = some (JVal.jint n0)) (h1 : v.get? 1 = some (JVal.jstr l1))
    (h2 : v.get? 2 = some (JVal.jstr l2)) (h3 : v.get? 3 = some (JVal.jstr l3))
    (h4 : v.get? 4 = some (JVal.jstr l4)) (h5 : v.get? 5 = some (JVal.jstr l5))
    (h7 : v.get? 7 = some (JVal.jstr l7)) (h8 : v.get? 8 = some j8)
    (h9 : v.get? 9 = some (JVal.jstr l9)) (h10 : v.get? 10 = some (JVal.jstr l10))
    (sm : StreamMsg) (k : KlineMsg) (c0 c1 : Char) (rest : List Char)
    (hi : k.i = c0 :: c1 :: rest) (hdig : c0.isDigit = true)
    (hc : c1 = 'm' ∨ c1 = 'h' ∨ c1 = 'd') :
    (parse_quote_tick_ws qm s t).ts_event = t ∧
    (parse_diff_depth_stream_ws dm s t).map OrderBookDeltas.ts_event
      = Except.ok (millis_to_nanos dm.E) ∧
    (parse_ticker_ws tm s t).ts_event = millis_to_nanos tm.E ∧
    (parse_trade_tick rm iid t).ts_event = millis_to_nanos rm.time ∧
    (parse_trade_tick_ws wm s t).ts_event = millis_to_nanos wm.T ∧
    (parse_bar bt v t).map BinanceBar.ts_event = Except.ok (millis_to_nanos n0) ∧
    (parse_bar_ws sm k t).map BinanceBar.ts_event = Except.ok (millis_to_nanos sm.E) := by
  refine ⟨rfl, ?_, rfl, rfl, rfl, ?_, ?_⟩
  · obtain ⟨bids, hb'⟩ := Option.isSome_iff_exists.mp hb
    obtain ⟨asks, ha'⟩ := Option.isSome_iff_exists.mp ha
    rw [parse_diff_depth_stream_ws, hb', ha']
    rfl
  · simp only [parse_bar, jget, h0, h1, h2, h3, h4, h5, h7, h8, h9, h10, Price.from_j,
      Quantity.from_j, jmillis, Except.bind, Except.map]
  · rcases hc with hc | hc | hc <;>
      subst hc <;>
      simp [parse_bar_ws, hi, charAt, pyIntChar, hdig, Except.bind, Except.map, List.get?]

/-- C8 witness: the statement applied at the concrete fixtures (book ticker,
depth update, ticker, both trades, REST kline array, `"4h"` streaming
kline). -/
theorem C8_ts_event_sources_witness :
    dm1.b.isSome = true ∧ dm1.a.isSome = true ∧ vA.get? 0 = some (JVal.jint 1000) ∧
    k4h.i = '4' :: 'h' :: [] ∧
    (parse_quote_tick_ws qm0 sym0 7).ts_event = 7 ∧
    (parse_diff_depth_stream_ws dm1 sym0 7).map OrderBookDeltas.ts_event
      = Except.ok (millis_to_nanos dm1.E) ∧
    (parse_ticker_ws tm0 sym0 7).ts_event = millis_to_nanos tm0.E ∧
    (parse_trade_tick rm0 iid0 7).ts_event = millis_to_nanos rm0.time ∧
    (parse_trade_tick_ws wm0 sym0 7).ts_event = millis_to_nanos wm0.T ∧
    (parse_bar bt1 vA 7).map BinanceBar.ts_event = Except.ok (millis_to_nanos 1000) ∧
    (parse_bar_ws sm0 k4h 7).map BinanceBar.ts_event = Except.ok (millis_to_nanos sm0.E) := by
  have h := C8_ts_event_sources qm0 sym0 7 dm1 rfl rfl tm0 rm0 iid0 wm0 bt1 vA 1000
    ⟨1, 0⟩ ⟨2, 0⟩ ⟨3, 0⟩ ⟨4, 0⟩ ⟨5, 0⟩ ⟨7, 0⟩ ⟨9, 0⟩ ⟨10, 0⟩ (JVal.jint 8)
    rfl rfl rfl rfl rfl rfl rfl rfl rfl rfl sm0 k4h '4' 'h' [] rfl rfl
    (Or.inr (Or.inl rfl))
  exact ⟨rfl, rfl, rfl, rfl, h.1, h.2.1, h.2.2.1, h.2.2.2.1, h.2.2.2.2.1,
    h.2.2.2.2.2.1, h.2.2.2.2.2.2⟩

/-- C9: for every translator in the module and every input on which it
succeeds, the `ts_init` field of the returned record is the caller-supplied
`ts_init` argument unchanged, never a function of the wire message. -/
theorem C9_ts_init_passthrough (qm : QuoteMsg) (s : Symbol) (t : ℤ)
    (iid : InstrumentId) (side : OrderSide) (dl : DecLit × DecLit) (te : ℤ)
    (dm : DepthMsg) (hb : dm.b.isSome = true) (ha : dm.a.isSome = true)
    (tm : TickerMsg) (rm : TradeMsg) (wm : TradeMsgWs)
    (bt : BarType) (v : List JVal) (n0 : ℤ) (l1 l2 l3 l4 l5 l7 l9 l10 : DecLit) (j8 : JVal)
    (h0 : v.get? 0 = some (JVal.jint n0)) (h1 : v.get? 1 = some (JVal.jstr l1))
    (h2 : v.get? 2 = some (JVal.jstr l2)) (h3 : v.get? 3 = some (JVal.jstr l3))
    (h4 : v.get? 4 = some (JVal.jstr l4)) (h5 : v.get? 5 = some (JVal.jstr l5))
    (h7 : v.get? 7 = some (JVal.jstr l7)) (h8 : v.get? 8 = some j8)
    (h9 : v.get? 9 = some (JVal.jstr l9)) (h10 : v.get? 10 = some (JVal.jstr l10))
    (sm : StreamMsg) (k : KlineMsg) (c0 c1 : Char) (rest : List Char)
    (hi : k.i = c0 :: c1 :: rest) (hdig : c0.isDigit = true)
    (hc : c1 = 'm' ∨ c1 = 'h' ∨ c1 = 'd') :
    (parse_order_book_delta_ws iid side dl te t).ts_init = t ∧
    (parse_diff_depth_stream_ws dm s t).map OrderBookDeltas.ts_init = Except.ok t ∧
    (parse_ticker_ws tm s t).ts_init = t ∧
    (parse_quote_tick_ws qm s t).ts_init = t ∧
    (parse_trade_tick rm iid t).ts_init = t ∧
    (parse_trade_tick_ws wm s t).ts_init = t ∧
    (parse_bar bt v t).map BinanceBar.ts_init = Except.ok t ∧
    (parse_bar_ws sm k t).map BinanceBar.ts_init = Except.ok t := by
  refine ⟨rfl, ?_, rfl, rfl, rfl, rfl, ?_, ?_⟩
  · obtain ⟨bids, hb'⟩ := Option.isSome_iff_exists.mp hb
    obtain ⟨asks, ha'⟩ := Option.isSome_iff_exists.mp ha
    rw [parse_diff_depth_stream_ws, hb', ha']
    rfl
  · simp only [parse_bar, jget, h0, h1, h2, h3, h4, h5, h7, h8, h9, h10, Price.from_j,
      Quantity.from_j, jmillis, Except.bind, Except.map]
  · rcases hc with hc | hc | hc <;>
      subst hc <;>
      simp [parse_bar_ws, hi, charAt, pyIntChar, hdig, Except.bind, Except.map, List.get?]

/-- C9 witness: the statement applied at the concrete fixtures with
`ts_init = 5000`. -/
theorem C9_ts_init_passthrough_witness :
    dm1.b.isSome = true ∧ dm1.a.isSome = true ∧ k4h.i = '4' :: 'h' :: [] ∧
    (parse_order_book_delta_ws iid0 OrderSide.BUY (lit_one, lit_e8) 1 5000).ts_init = 5000 ∧
    (parse_diff_depth_stream_ws dm1 sym0 5000).map OrderBookDeltas.ts_init
      = Except.ok 5000 ∧
    (parse_ticker_ws tm0 sym0 5000).ts_init = 5000 ∧
    (parse_quote_tick_ws qm0 sym0 5000).ts_init = 5000 ∧
    (parse_trade_tick rm0 iid0 5000).ts_init = 5000 ∧
    (parse_trade_tick_ws wm0 sym0 5000).ts_init = 5000 ∧
    (parse_bar bt1 vA 5000).map BinanceBar.ts_init = Except.ok 5000 ∧
    (parse_bar_ws sm0 k4h 5000).map BinanceBar.ts_init = Except.ok 5000 := by
  have h := C9_ts_init_passthrough qm0 sym0 5000 iid0 OrderSide.BUY (lit_one, lit_e8) 1
    dm1 rfl rfl tm0 rm0 wm0 bt1 vA 1000
    ⟨1, 0⟩ ⟨2, 0⟩ ⟨3, 0⟩ ⟨4, 0⟩ ⟨5, 0⟩ ⟨7, 0⟩ ⟨9, 0⟩ ⟨10, 0⟩ (JVal.jint 8)
    rfl rfl rfl rfl rfl rfl rfl rfl rfl rfl sm0 k4h '4' 'h' [] rfl rfl
    (Or.inr (Or.inl rfl))
  exact ⟨rfl, rfl, rfl, h.1, h.2.1, h.2.2.1, h.2.2.2.1, h.2.2.2.2.1, h.2.2.2.2.2.1,
    h.2.2.2.2.2.2.1, h.2.2.2.2.2.2.2⟩

/-- C10: the bar produced by `parse_bar` depends only on `bar_type`,
`ts_init` and the array elements at indices 0–5 and 7–10: two arrays that
agree at those ten positions yield identical results, whatever stands at the
close-time index 6 or past index 10. -/
theorem C10_parse_bar_field_dependence (bt : BarType) (v1 v2 : List JVal) (t : ℤ)
    (h0 : v1.get? 0 = v2.get? 0) (h1 : v1.get? 1 = v2.get? 1) (h2 : v1.get? 2 = v2.get? 2)
    (h3 : v1.get? 3 = v2.get? 3) (h4 : v1.get? 4 = v2.get? 4) (h5 : v1.get? 5 = v2.get? 5)
    (h7 : v1.get? 7 = v2.get? 7) (h8 : v1.get? 8 = v2.get? 8) (h9 : v1.get? 9 = v2.get? 9)
    (h10 : v1.get? 10 = v2.get? 10) :
    parse_bar bt v1 t = parse_bar bt v2 t := by
  simp only [parse_bar, jget, h0, h1, h2, h3, h4, h5, h7, h8, h9, h10]

/-- C10 witness: two concrete kline arrays differing at the close-time
index 6 and in a trailing twelfth element, with equal translations. -/
theorem C10_parse_bar_field_dependence_witness :
    vA.get? 6 ≠ vB.get? 6 ∧ vA.get? 11 ≠ vB.get? 11 ∧
    vA.get? 0 = vB.get? 0 ∧ vA.get? 5 = vB.get? 5 ∧ vA.get? 10 = vB.get? 10 ∧
    parse_bar bt1 vA 3 = parse_bar bt1 vB 3 :=
  ⟨by decide, by decide, rfl, rfl, rfl,
    C10_parse_bar_field_dependence bt1 vA vB 3 rfl rfl rfl rfl rfl rfl rfl rfl rfl rfl⟩

end Binance
